import Mathlib

/-!
Shallow embedding of code/utils/main.py of the pan-cancer plasma proteome
analysis toolkit.  Dataframe bookkeeping is modelled over lists of rationals;
external statistical routines (VIF scoring, scaler transforms, model fitting,
ANOVA decomposition, file parsing) are abstracted as function parameters;
raised Python exceptions are modelled with Except and Option.
-/

namespace PanPlasma

/-- numpy np.max over a vector of scores; the empty case is unused by callers,
which model the ValueError raised there separately. -/
def npMax : List ℚ → ℚ
  | [] => 0
  | x :: xs => xs.foldl max x

/-- numpy np.argmax: index of the first occurrence of the maximum value. -/
def npArgmax : List ℚ → ℕ
  | [] => 0
  | [_] => 0
  | x :: y :: ys => if npMax (y :: ys) > x then npArgmax (y :: ys) + 1 else 0

/-- Python Preprocessing.calculate_vif.  The data frame is represented by its
list of predictor columns, and the VIF scoring of the current columns (the
statsmodels variance_inflation_factor calls over the columns plus the appended
constant, with the constant excluded from the scores by the trailing slice) is
abstracted as the function vif, which maps the current column list to the
per-column scores.  In the source, max_loc = np.argmax(max_vif) takes the
argmax of the scalar max_vif, which is always 0, so each iteration drops the
first remaining column; once every column has been dropped the next np.max
call sees an empty score array and raises, modelled as none. -/
def calculate_vif (vif : List α → List ℚ) (thresh : ℚ) : List α → Option (List α)
  | [] => none
  | c :: cs =>
    if npMax (vif (c :: cs)) > thresh then calculate_vif vif thresh cs
    else some (c :: cs)

/-- Modelled from the spec: the documented calculate_vif behavior, dropping at
each iteration the first column achieving the maximum VIF score (fuel bounded
for termination; the fuel suffices since one column is removed per
iteration). -/
def calculate_vif_spec_go (vif : List α → List ℚ) (thresh : ℚ) :
    ℕ → List α → Option (List α)
  | 0, _ => none
  | _ + 1, [] => none
  | fuel + 1, c :: cs =>
    if npMax (vif (c :: cs)) > thresh then
      calculate_vif_spec_go vif thresh fuel
        ((c :: cs).eraseIdx (npArgmax (vif (c :: cs))))
    else some (c :: cs)

/-- Modelled from the spec: entry point of the documented VIF pruning. -/
def calculate_vif_spec (vif : List α → List ℚ) (thresh : ℚ) (cols : List α) :
    Option (List α) :=
  calculate_vif_spec_go vif thresh (cols.length + 1) cols

/-- Example VIF scorer: while at least two columns remain, column 1 scores 10
and every other column scores 1; a single remaining column scores 1. -/
def exVif (cols : List ℕ) : List ℚ :=
  if 2 ≤ cols.length then cols.map (fun c => if c = 1 then 10 else 1)
  else cols.map (fun _ => 1)

/-- String keys of the scaler_methods dictionary in Preprocessing.scale. -/
def scaler_method_names : List String :=
  ["standard", "zscore", "minmax", "normalizer", "robust", "log2", "log10"]

/-- Python Preprocessing.scale.  A falsy scaler argument (Python None,
modelled as Option.none, or the empty string) returns the element unchanged;
otherwise the scaler name is looked up in the scaler_methods dictionary, which
raises KeyError for a missing key, and the resolved transform (abstracted as
apply) is applied to the element. -/
def scale (apply : String → α → α) (element : α) : Option String → Except String α
  | none => Except.ok element
  | some s =>
    if s = "" then Except.ok element
    else if s ∈ scaler_method_names then Except.ok (apply s element)
    else Except.error ("KeyError: " ++ s)

/-- Abstract file system seen by Dataset.__init__: which paths are existing
directories and what os.listdir returns on them. -/
structure FS where
  isDir : String → Bool
  entries : String → List String

/-- Python os.path.join as used by the source. -/
def os_path_join (a b : String) : String := a ++ "/" ++ b

/-- Python os.listdir: raises FileNotFoundError when the path does not
exist. -/
def os_listdir (fs : FS) (p : String) : Except String (List String) :=
  if fs.isDir p then Except.ok (fs.entries p) else Except.error "FileNotFoundError"

/-- Python Dataset.__init__.  The guard on the missing document directory only
constructs a FileNotFoundError without raising it; initialization then calls
os.listdir on the document directory (which itself raises when that directory
is missing), splits each file name at dots to get the omic names, and bulk
loads them through _load_dataset, which skips every name whose load raises:
per-file parsing is abstracted as loadOk.  The returned list is
_valid_dfs_names, the registry of loaded tables. -/
def dataset_init (loadOk : String → Bool) (fs : FS) (dirpath : String) :
    Except String (List String) :=
  (os_listdir fs (os_path_join dirpath "document")).map
    (fun files => (files.map (fun f => (f.splitOn ".").headD "")).filter loadOk)

/-- Two-group state of Group.__group_pipeline: the group labels in order of
first appearance in the data, together with the per-feature summary values
(mean, median, and so on, as selected by param_method) for each group. -/
structure TwoGroups (α : Type) where
  g0 : α
  g1 : α
  v0 : List ℚ
  v1 : List ℚ

/-- Exchange which group is discovered first in the data. -/
def swapGroups (d : TwoGroups α) : TwoGroups α := ⟨d.g1, d.g0, d.v1, d.v0⟩

/-- Python Group.__table mode flag: difference mode is chosen when any summary
value of either group is negative. -/
def nega_annot (d : TwoGroups α) : Bool :=
  (d.v0 ++ d.v1).any (fun x => decide (x < 0))

/-- Python Group.__group_set_params, two-group branch: yields the change flag
together with the resolved (dividend, divisor) pair. -/
def group_set_params [DecidableEq α] (dividend : Option α) (d : TwoGroups α) :
    Bool × α × α :=
  if dividend = some d.g0 then (false, d.g0, d.g1) else (true, d.g1, d.g0)

/-- Python Group.__table ratio column for the two-group case: first-group
values minus (difference mode) or over (quotient mode) second-group values,
inverted post hoc (negated in difference mode, reciprocal in quotient mode)
when the change flag is set. -/
def ratio_column [DecidableEq α] (dividend : Option α) (d : TwoGroups α) :
    List ℚ :=
  let base :=
    if nega_annot d then d.v0.zipWith (fun a b => a - b) d.v1
    else d.v0.zipWith (fun a b => a / b) d.v1
  if (group_set_params dividend d).1 then
    if nega_annot d then base.map (fun x => -x) else base.map (fun x => 1 / x)
  else base

/-- Spec reading of the ratio orientation, for refinement comparison: dividend
values minus (difference mode) or over (quotient mode) divisor values. -/
def ratio_oriented_spec (dividendVals divisorVals : List ℚ) (negMode : Bool) :
    List ℚ :=
  if negMode then dividendVals.zipWith (fun a b => a - b) divisorVals
  else dividendVals.zipWith (fun a b => a / b) divisorVals

/-- Modelled from the spec: percentage, imported from utils.function whose
source file is not in the repository snapshot — the non-missing fraction of a
feature row, missing entries being none. -/
def percentage (row : List (Option ℚ)) : ℚ :=
  ((row.countP (fun x => x.isSome) : ℕ) : ℚ) / (row.length : ℚ)

/-- Python Group.__group_cal_values retained-feature mask self.__out_index:
true for a feature whose non-missing percentage strictly exceeds the threshold
in at least one group.  groups lists, for each group, the per-feature rows of
sample values. -/
def out_index (thresh : ℚ) (groups : List (List (List (Option ℚ)))) (i : ℕ) :
    Bool :=
  groups.any (fun g => decide (thresh < percentage (g.getD i [])))

/-- Python Group.table property: the assembled result table restricted to the
feature positions passing out_index. -/
def table_rows (thresh : ℚ) (groups : List (List (List (Option ℚ))))
    (nFeatures : ℕ) : List ℕ :=
  (List.range nFeatures).filter (out_index thresh groups)

/-- Domain-specific error type utils.exceptions.MethodError as raised by
Correlation.__corr_table. -/
inductive CorrErr
  | methodError (msg : String)
deriving DecidableEq

/-- Message of the MethodError raised by Correlation.__corr_table. -/
def corr_table_err_msg : String :=
  "corr_table only suitable for one vs. n data type or n vs. n data when fdr_type is local , please consider spearman_rho, spearman_prob, spearman_fdr, pearson_corr, pearson_prob and pearsonfdr function to obtain correlation, probability and FDR matrix seperately."

/-- Python str.lower. -/
def pyLower (s : String) : String := s.map Char.toLower

/-- Python Correlation.__corr_table: a combined single results table is
refused with MethodError unless one of the two handled element sets has
exactly one element or the lowered fdr_type is local; otherwise the table is
assembled on the longer element set as row index with one column per collected
statistic name. -/
def corr_table (e1 e2 : List String) (fdr_type : String)
    (corr_value : List (String × List ℚ)) :
    Except CorrErr (List String × List String) :=
  if ¬(e1.length = 1 ∨ e2.length = 1 ∨ pyLower fdr_type = "local") then
    Except.error (CorrErr.methodError corr_table_err_msg)
  else if e1.length ≤ e2.length then Except.ok (e2, corr_value.map Prod.fst)
  else Except.ok (e1, corr_value.map Prod.fst)

/-- Entry of the reg_model defaultdict for one outcome: the fitted model and
the anova decomposition, when assigned.  Model values are abstracted as
rationals. -/
structure RegEntry where
  model : Option ℚ
  anova : Option ℚ
deriving DecidableEq

/-- Python Regression.__reg_pipeline fitting loop.  Each outcome is its column
name paired with some model value when __reg_fit returns normally and none
when the fit raises; the bare except prints the outcome name (collected here
as diagnostics) and continues with the next outcome.  The local variable model
keeps the binding from the last successful fit, so when anova is enabled the
anova_lm call after a failed fit silently consumes the stale previous model
(or raises NameError, also caught and printed, when no fit has succeeded yet).
An outcome enters reg_model only when one of its defaultdict fields was
assigned. -/
def reg_pipeline_loop (anova : Bool) (anova_lm : ℚ → ℚ) :
    Option ℚ → List (String × Option ℚ) → List (String × RegEntry) × List String
  | _, [] => ([], [])
  | lastModel, (name, fitRes) :: rest =>
    let modelVar := match fitRes with
      | some m => some m
      | none => lastModel
    let diags1 : List String := match fitRes with
      | some _ => []
      | none => [name]
    let anovaRes : Option ℚ × List String :=
      if anova then
        match modelVar with
        | some m => (some (anova_lm m), [])
        | none => (none, ["Error in " ++ name ++ " variable"])
      else (none, [])
    let entry : RegEntry := ⟨fitRes, anovaRes.1⟩
    let rest_out := reg_pipeline_loop anova anova_lm modelVar rest
    let stored := if entry.model.isSome || entry.anova.isSome then [(name, entry)] else []
    (stored ++ rest_out.1, (diags1 ++ anovaRes.2) ++ rest_out.2)

/-- Python Regression.__reg_table for one requested output: the eta branch
reads each entry inside try/except pass, skipping entries without an anova
field; every other output reads the plain dict entry model of each outcome,
which raises an uncaught KeyError when the fit for that outcome failed. -/
def reg_table_output (output : String) (entries : List (String × RegEntry)) :
    Except String (List (String × ℚ)) :=
  if output = "eta" then
    Except.ok (entries.filterMap (fun ne => ne.2.anova.map (fun a => (ne.1, a))))
  else
    entries.mapM (fun ne =>
      match ne.2.model with
      | some m => Except.ok (ne.1, m)
      | none => Except.error ("KeyError: model for " ++ ne.1))

/-- Python Regression.__reg_pipeline followed by __reg_table: the assembled
per-output result blocks (or the uncaught exception) together with the printed
diagnostics. -/
def reg_run (anova : Bool) (anova_lm : ℚ → ℚ) (outputs : List String)
    (outcomes : List (String × Option ℚ)) :
    Except String (List (String × List (String × ℚ))) × List String :=
  let pl := reg_pipeline_loop anova anova_lm Option.none outcomes
  (outputs.mapM (fun out => (reg_table_output out pl.1).map (fun t => (out, t))),
    pl.2)

/-- Group parameter bundle slice relevant to the threshold update. -/
structure GroupParams where
  thresh : ℚ
deriving DecidableEq

/-- Python Analysis.set_param boundary remap for the thresh key: the supplied
value passes through a dictionary get mapping 0 to 1e-5 and 1 to 1 - 1e-5,
with the supplied value itself as the default. -/
def set_param_store_thresh (v : ℚ) : ℚ :=
  (List.lookup v [((0 : ℚ), (1 / 100000 : ℚ)), (1, 1 - 1 / 100000)]).getD v

/-- Python Analysis.set_param, group branch, storing the thresh kwarg into the
parameter bundle. -/
def set_param_group_thresh (p : GroupParams) (v : ℚ) : GroupParams :=
  { p with thresh := set_param_store_thresh v }

/-- Record of one file written by Dataset.write_table from a raw matrix: the
labels and axis names attached to it. -/
structure WrittenTable where
  file_name : String
  row_labels : List String
  col_labels : List String
  index_name : String
  columns_name : String
deriving DecidableEq

/-- Python Dataset.write_table on a raw (non dataframe) matrix: the given
index and columns become the row and column labels of the written table. -/
def write_table (index columns : List String)
    (index_name columns_name file_name : String) : WrittenTable :=
  ⟨file_name, index, columns, index_name, columns_name⟩

/-- Python Correlation.__corr_pipeline write-out loop: each collected matrix
is written with handle_element2 passed as both the index and the columns
argument, and the two table names as the axis names; handle_element1 is not
consulted. -/
def corr_write_out (name1 name2 : String)
    (_handle_element1 handle_element2 : List String)
    (corr_value : List (String × List (List ℚ))) : List WrittenTable :=
  corr_value.map (fun nv =>
    write_table handle_element2 handle_element2 name1 name2
      (name1 ++ "_" ++ name2 ++ "_" ++ nv.1))

/-! Helper lemmas shared by the claim theorems. -/

@[simp] theorem swapGroups_g0 (d : TwoGroups α) : (swapGroups d).g0 = d.g1 := rfl

@[simp] theorem swapGroups_g1 (d : TwoGroups α) : (swapGroups d).g1 = d.g0 := rfl

@[simp] theorem swapGroups_v0 (d : TwoGroups α) : (swapGroups d).v0 = d.v1 := rfl

@[simp] theorem swapGroups_v1 (d : TwoGroups α) : (swapGroups d).v1 = d.v0 := rfl

theorem nega_annot_swap (d : TwoGroups α) :
    nega_annot (swapGroups d) = nega_annot d := by
  simp only [nega_annot, swapGroups, List.any_append]
  exact Bool.or_comm _ _

theorem map_neg_zipWith_sub (a b : List ℚ) :
    (a.zipWith (fun x y => x - y) b).map (fun x => -x)
      = b.zipWith (fun x y => x - y) a := by
  induction a generalizing b with
  | nil => cases b <;> rfl
  | cons x xs ih =>
    cases b with
    | nil => rfl
    | cons y ys => simp [List.zipWith, ih, neg_sub]

theorem map_inv_zipWith_div (a b : List ℚ) :
    (a.zipWith (fun x y => x / y) b).map (fun x => x⁻¹)
      = b.zipWith (fun x y => x / y) a := by
  induction a generalizing b with
  | nil => cases b <;> rfl
  | cons x xs ih =>
    cases b with
    | nil => rfl
    | cons y ys => simp [List.zipWith, ih, inv_div]

theorem set_param_store_thresh_eq (v : ℚ) :
    set_param_store_thresh v =
      if v = 0 then 1 / 100000 else if v = 1 then 1 - 1 / 100000 else v := by
  unfold set_param_store_thresh
  by_cases h0 : v = 0
  · subst h0; rfl
  · by_cases h1 : v = 1
    · subst h1; rfl
    · rw [if_neg h0, if_neg h1]
      have hb0 : (v == (0 : ℚ)) = false := by
        rw [beq_eq_false_iff_ne]; exact h0
      have hb1 : (v == (1 : ℚ)) = false := by
        rw [beq_eq_false_iff_ne]; exact h1
      simp [List.lookup, hb0, hb1]

/-! Claim theorems. -/

/-- Claim C1 (code-bug evidence): with VIF scores 1 and 10 for columns 0 and 1
and threshold 5, the code drops column 0 (score 1) and returns column 1 alone,
because np.argmax is applied to the scalar max_vif and always yields index 0;
the claimed behavior, calculate_vif_spec, drops the max-scoring column 1 and
returns column 0 alone. -/
theorem calculate_vif_drops_first_not_argmax :
    calculate_vif exVif 5 [0, 1] = some [1]
      ∧ calculate_vif_spec exVif 5 [0, 1] = some [0] := by
  constructor <;> decide

/-- Claim C7: calculate_vif is idempotent — whenever a run returns a column
list, re-running it on that output with the same threshold returns the output
unchanged, since the loop only stops once the maximum remaining VIF score is
at or below the threshold. -/
theorem calculate_vif_idempotent (vif : List α → List ℚ) (thresh : ℚ)
    (cols out : List α) (h : calculate_vif vif thresh cols = some out) :
    calculate_vif vif thresh out = some out := by
  revert h
  induction cols with
  | nil =>
    intro h
    simp [calculate_vif] at h
  | cons c cs ih =>
    intro h
    simp only [calculate_vif] at h
    by_cases hc : npMax (vif (c :: cs)) > thresh
    · rw [if_pos hc] at h
      exact ih h
    · rw [if_neg hc] at h
      have hout : c :: cs = out := Option.some.inj h
      subst hout
      simp only [calculate_vif]
      rw [if_neg hc]

/-- Witness for claim C7 at a concrete input. -/
theorem calculate_vif_idempotent_witness :
    calculate_vif (fun l : List ℕ => l.map (fun _ => (1 : ℚ))) 5 [0, 1]
      = some [0, 1] :=
  calculate_vif_idempotent _ 5 [0, 1] [0, 1] (by decide)

/-- Claim C2: for a two-group run whose configured dividend is one of the two
discovered groups, the ratio column equals dividend values minus divisor
values in difference mode and dividend values over divisor values in quotient
mode, and its value does not depend on which group is discovered first. -/
theorem two_group_ratio_orientation [DecidableEq α] (d : TwoGroups α) (D : α)
    (hne : d.g0 ≠ d.g1) (hD : D = d.g0 ∨ D = d.g1) :
    ratio_column (some D) d
        = ratio_oriented_spec (if D = d.g0 then d.v0 else d.v1)
            (if D = d.g0 then d.v1 else d.v0) (nega_annot d)
      ∧ ratio_column (some D) (swapGroups d) = ratio_column (some D) d := by
  have hne' : d.g1 ≠ d.g0 := Ne.symm hne
  rcases hD with rfl | rfl
  · constructor
    · simp [ratio_column, group_set_params, ratio_oriented_spec]
    · by_cases hn : nega_annot d = true
      · simp [ratio_column, group_set_params, nega_annot_swap, hn, hne,
          map_neg_zipWith_sub]
      · have hn' : nega_annot d = false := by
          cases h : nega_annot d
          · rfl
          · exact absurd h hn
        simp [ratio_column, group_set_params, nega_annot_swap, hn', hne,
          map_inv_zipWith_div]
  · constructor
    · by_cases hn : nega_annot d = true
      · simp [ratio_column, group_set_params, ratio_oriented_spec, hn, hne',
          map_neg_zipWith_sub]
      · have hn' : nega_annot d = false := by
          cases h : nega_annot d
          · rfl
          · exact absurd h hn
        simp [ratio_column, group_set_params, ratio_oriented_spec, hn', hne',
          map_inv_zipWith_div]
    · by_cases hn : nega_annot d = true
      · simp [ratio_column, group_set_params, nega_annot_swap, hn, hne',
          map_neg_zipWith_sub]
      · have hn' : nega_annot d = false := by
          cases h : nega_annot d
          · rfl
          · exact absurd h hn
        simp [ratio_column, group_set_params, nega_annot_swap, hn', hne',
          map_inv_zipWith_div]

/-- Witness for claim C2: groups discovered in order A, B with means 2 and 4
and configured dividend A give ratio 2 / 4, unchanged under swapping the
discovery order. -/
theorem two_group_ratio_orientation_witness :
    ratio_column (some "A") (TwoGroups.mk "A" "B" [2] [4]) = [1 / 2]
      ∧ ratio_column (some "A") (swapGroups (TwoGroups.mk "A" "B" [2] [4]))
        = ratio_column (some "A") (TwoGroups.mk "A" "B" [2] [4]) := by
  have h := two_group_ratio_orientation (TwoGroups.mk "A" "B" [2] [4]) "A"
    (by decide) (Or.inl rfl)
  refine ⟨?_, h.2⟩
  rw [h.1]
  norm_num [ratio_oriented_spec, nega_annot]

/-- Claim C3 counterexample: constructing a Dataset on a directory with no
document subfolder is not accepted silently — it raises FileNotFoundError
from the os.listdir call, instead of yielding an empty registry. -/
theorem dataset_init_missing_document_cex :
    dataset_init (fun _ => true) ⟨fun _ => false, fun _ => []⟩ "proj"
        = Except.error "FileNotFoundError"
      ∧ dataset_init (fun _ => true) ⟨fun _ => false, fun _ => []⟩ "proj"
        ≠ Except.ok [] := by
  refine ⟨rfl, fun hcontra => Except.noConfusion hcontra⟩

/-- Claim C3 (amended): although the explicitly constructed FileNotFoundError
is never raised, Dataset construction on a directory without a document
subfolder still raises, because the subsequent os.listdir call on the missing
directory fails; no registry of zero tables is produced. -/
theorem dataset_init_missing_document_raises (loadOk : String → Bool) (fs : FS)
    (dirpath : String) (h : fs.isDir (os_path_join dirpath "document") = false) :
    dataset_init loadOk fs dirpath = Except.error "FileNotFoundError" := by
  simp [dataset_init, os_listdir, h, Except.map]

/-- Witness for the amended claim C3 at a concrete file system. -/
theorem dataset_init_missing_document_raises_witness :
    dataset_init (fun _ => false) ⟨fun _ => false, fun p => [p]⟩ "proj2"
      = Except.error "FileNotFoundError" :=
  dataset_init_missing_document_raises _ _ _ rfl

/-- Claim C4: the combined correlation table request raises the MethodError
(with its message instructing use of the per-statistic matrix accessors)
exactly when neither handled element set has exactly one element and the
lowered fdr_type is not local; one-vs-many requests and locally corrected
many-vs-many requests are assembled without this error. -/
theorem corr_table_single_table_guard (e1 e2 : List String) (fdr_type : String)
    (corr_value : List (String × List ℚ)) :
    corr_table e1 e2 fdr_type corr_value
        = Except.error (CorrErr.methodError corr_table_err_msg)
      ↔ ¬(e1.length = 1 ∨ e2.length = 1 ∨ pyLower fdr_type = "local") := by
  by_cases h : e1.length = 1 ∨ e2.length = 1 ∨ pyLower fdr_type = "local"
  · unfold corr_table
    rw [if_neg (not_not_intro h)]
    constructor
    · intro heq
      split at heq <;> exact Except.noConfusion heq
    · intro hn
      exact absurd h hn
  · unfold corr_table
    rw [if_pos h]
    exact iff_of_true rfl h

/-- Claim C5 counterexample: scale called with the string none raises KeyError
instead of acting as the identity, since none is not a key of the
scaler_methods dictionary. -/
theorem scale_string_none_raises_cex :
    scale (fun _ x => x) (37 : ℚ) (some "none") = Except.error "KeyError: none" :=
  rfl

/-- Claim C5 (amended): scale is the identity for a falsy method argument
(Python None or the empty string) and raises KeyError for the literal string
none, which is not among the accepted scaler method names. -/
theorem scale_falsy_identity (apply : String → α → α) (element : α) :
    scale apply element Option.none = Except.ok element
      ∧ scale apply element (some "") = Except.ok element
      ∧ scale apply element (some "none") = Except.error "KeyError: none" :=
  ⟨rfl, rfl, rfl⟩

/-- Claim C6: a feature position appears among the rows of the exposed table
exactly when it is in range and its non-missing percentage strictly exceeds
the threshold in at least one group; all other assembled rows are excluded by
the mask. -/
theorem table_rows_retained_iff (thresh : ℚ)
    (groups : List (List (List (Option ℚ)))) (nFeatures i : ℕ) :
    i ∈ table_rows thresh groups nFeatures
      ↔ i < nFeatures ∧ ∃ g ∈ groups, thresh < percentage (g.getD i []) := by
  simp [table_rows, out_index, List.mem_filter, List.any_eq_true]

/-- Claim C8 (code-bug evidence): with outcomes y1 (fit succeeds with model 2)
and y2 (fit raises), the diagnostic names y2 and, with anova disabled, the run
completes with y1 in the params block.  With anova enabled, the stale model
variable from y1 gives the failed outcome y2 an anova-only reg_model entry and
result assembly then aborts with an uncaught KeyError, so the successful y1
fit never appears in the result. -/
theorem reg_run_fit_failure_behavior :
    reg_run false (fun m => m) ["params"] [("y1", some 2), ("y2", Option.none)]
        = (Except.ok [("params", [("y1", 2)])], ["y2"])
      ∧ reg_run true (fun m => m) ["params"] [("y1", some 2), ("y2", Option.none)]
        = (Except.error "KeyError: model for y2", ["y2"]) := by
  constructor <;> rfl

/-- Claim C9: the group-pipeline parameter update stores a supplied threshold
of 0 as 1e-5 and a supplied threshold of 1 as 1 - 1e-5, and stores every other
supplied value unchanged. -/
theorem set_param_thresh_boundary_remap (p : GroupParams) (v : ℚ)
    (h0 : v ≠ 0) (h1 : v ≠ 1) :
    (set_param_group_thresh p 0).thresh = 1 / 100000
      ∧ (set_param_group_thresh p 1).thresh = 1 - 1 / 100000
      ∧ (set_param_group_thresh p v).thresh = v := by
  refine ⟨?_, ?_, ?_⟩ <;>
    simp [set_param_group_thresh, set_param_store_thresh_eq, h0, h1]

/-- Witness for claim C9 at the concrete non-boundary value one half. -/
theorem set_param_thresh_boundary_remap_witness :
    (set_param_group_thresh ⟨7⟩ 0).thresh = 1 / 100000
      ∧ (set_param_group_thresh ⟨7⟩ 1).thresh = 1 - 1 / 100000
      ∧ (set_param_group_thresh ⟨7⟩ (1 / 2)).thresh = 1 / 2 :=
  set_param_thresh_boundary_remap ⟨7⟩ (1 / 2) (by norm_num) (by norm_num)

/-- Claim C10: every table written by the correlation write-out loop carries
the second handled element set as both its row labels and its column labels;
the first element set is not used for either axis. -/
theorem corr_write_out_element2_both_axes (name1 name2 : String)
    (e1 e2 : List String) (corr_value : List (String × List (List ℚ)))
    (w : WrittenTable) (hw : w ∈ corr_write_out name1 name2 e1 e2 corr_value) :
    w.row_labels = e2 ∧ w.col_labels = e2 := by
  rcases List.mem_map.mp hw with ⟨nv, _, rfl⟩
  exact ⟨rfl, rfl⟩

/-- Witness for claim C10 at a concrete write-out of one matrix. -/
theorem corr_write_out_element2_both_axes_witness :
    (WrittenTable.mk "t1_t2_corr" ["s1"] ["s1"] "t1" "t2").row_labels = ["s1"]
      ∧ (WrittenTable.mk "t1_t2_corr" ["s1"] ["s1"] "t1" "t2").col_labels = ["s1"] :=
  corr_write_out_element2_both_axes "t1" "t2" ["a", "b"] ["s1"]
    [("corr", [[1]])] (WrittenTable.mk "t1_t2_corr" ["s1"] ["s1"] "t1" "t2")
    (by decide)

end PanPlasma
